import Mathlib

/-!
Shallow embedding of the ModCacheX mod-cache manager (src/ModCacheX.py).

The embedding covers the engine logic the specification describes:
size formatting (`format_size`), the size-column sort with its string
re-parsing helper (`sort_tree` / `convert_size`), archive metadata
version extraction (`parse_mod_version`), the directory rescan
(`refresh_mod_list` with `get_cache_size` and the budget warning),
text search (`search_mods`), and import with conflict resolution
(`import_mods`).  Python exceptions are modelled with `Option`: a
`none` produced where the source has no enclosing `try` models an
exception escaping the operation; code under `except ...: return None`
is modelled by the handler's value.
-/

namespace ModCacheX

/-! ### Python string primitives -/

/-- Helper for the substring test: does `hay` start with `needle`
(character lists)? -/
def starts_chars : List Char → List Char → Bool
  | [], _ => true
  | _ :: _, [] => false
  | a :: as, b :: bs => a == b && starts_chars as bs

/-- Helper for the substring test: does `needle` occur contiguously in
`hay` (character lists)? -/
def sub_chars (needle : List Char) : List Char → Bool
  | [] => needle.isEmpty
  | c :: rest => starts_chars needle (c :: rest) || sub_chars needle rest

/-- Model of the Python membership test `needle in hay` on strings:
contiguous-substring test (the empty needle is in every string). -/
def py_in_str (needle hay : String) : Bool :=
  sub_chars needle.data hay.data

/-- Lower-case one character, as Python `str.lower` does on ASCII. -/
def char_lower (c : Char) : Char :=
  if 'A' ≤ c ∧ c ≤ 'Z' then Char.ofNat (c.toNat + 32) else c

/-- Model of Python `str.lower()` (ASCII range; the program's names,
versions and extensions are ASCII). -/
def py_lower (s : String) : String :=
  ⟨s.data.map char_lower⟩

/-- The whitespace characters stripped by Python `str.strip()` and used
as separators by `str.split()`. -/
def py_space (c : Char) : Bool :=
  c == ' ' || c == '\t' || c == '\n' || c == '\r' ||
    c == Char.ofNat 11 || c == Char.ofNat 12

/-- Drop characters satisfying `p` from the front of a list. -/
def drop_while_chars (p : Char → Bool) : List Char → List Char
  | [] => []
  | c :: rest => if p c then drop_while_chars p rest else c :: rest

/-- Model of Python `str.strip()`: remove whitespace from both ends. -/
def py_strip (s : String) : String :=
  ⟨((drop_while_chars py_space
      (drop_while_chars py_space s.data).reverse)).reverse⟩

/-- Does the character list end with the given suffix? -/
def ends_chars (suffix hay : List Char) : Bool :=
  starts_chars suffix.reverse hay.reverse

/-- Model of Python `str.endswith(suffix)`. -/
def py_endswith (s suffix : String) : Bool :=
  ends_chars suffix.data s.data

/-- Model of Python `str.startswith(pre)`. -/
def py_startswith (s pre : String) : Bool :=
  starts_chars pre.data s.data

/-- Split a character list at every occurrence of the separator
character, keeping empty fields (like Python `str.split(sep)` with an
explicit separator). -/
def split_char (sep : Char) : List Char → List (List Char)
  | [] => [[]]
  | c :: rest =>
    let r := split_char sep rest
    if c == sep then [] :: r
    else
      match r with
      | [] => [[c]]
      | f :: fs => (c :: f) :: fs

/-- Model of Python `str.split()` with no argument: split on runs of
whitespace and drop the empty fields. -/
def py_split_ws (s : String) : List String :=
  ((split_char ' ' (s.data.map (fun c => if py_space c then ' ' else c))).filter
      (fun f => !f.isEmpty)).map (fun f => ⟨f⟩)

/-- Model of `os.path.basename`: the part of the path after the last
path separator. -/
def basename (p : String) : String :=
  ⟨(split_char '/' p.data).getLastD []⟩

/-- Parse a non-empty all-digit character list to its numeric value
(accumulator form, most significant digit first). -/
def digits_val (acc : Nat) : List Char → Option Nat
  | [] => some acc
  | c :: rest =>
    if '0' ≤ c ∧ c ≤ '9' then digits_val (acc * 10 + (c.toNat - 48)) rest
    else none

/-- Parse a digit string to a natural number; `none` if empty or not
all digits. -/
def parse_digits (l : List Char) : Option Nat :=
  match l with
  | [] => none
  | _ => digits_val 0 l

/-! ### SizeFormatter: `ModCacheX.format_size` (lines 274-281)

The source loop is

    while size_bytes >= 1024 and unit_index < len(units) - 1:
        size_bytes //= 1024
        unit_index += 1

`format_size_go b steps` runs that loop with `steps` unit steps still
available (`steps = len(units) - 1 - unit_index`) and returns the final
value together with the number of divisions performed, so the loop body
itself is `format_size_go size_bytes 4`. -/

/-- Loop of `format_size`: repeatedly floor-divide by 1024 while the
value is at least 1024 and unit steps remain; returns the final value
and how many divisions were done (the final unit index). -/
def format_size_go : Nat → Nat → Nat × Nat
  | b, 0 => (b, 0)
  | b, steps + 1 =>
    if b ≥ 1024 then
      let p := format_size_go (b / 1024) steps
      (p.1, p.2 + 1)
    else (b, 0)

/-- The unit names of `format_size` (`units = ['B','KB','MB','GB','TB']`). -/
def size_units : List String := ["B", "KB", "MB", "GB", "TB"]

/-- Model of `ModCacheX.format_size`: divide down by 1024 and render.
The rendered value is an `int`, so Python's `f"{size_bytes:.2f}"`
always produces the decimal digits followed by `".00"`. -/
def format_size (size_bytes : Nat) : String :=
  let p := format_size_go size_bytes 4
  toString p.1 ++ ".00 " ++ size_units.getD p.2 ""

/-- Specification-side characterisation of the unit index chosen by the
`format_size` loop: the number of floor-divisions by 1024 needed to
bring the value below 1024, capped at 4. -/
def unit_index_spec (b : Nat) : Nat :=
  if b < 1024 then 0
  else if b < 1048576 then 1
  else if b < 1073741824 then 2
  else if b < 1099511627776 then 3
  else 4

/-! ### `convert_size` inside `ModCacheX.sort_tree` (lines 363-366)

    def convert_size(size_str: str) -> float:
        size, unit = size_str.split()
        units = {'B': 1, 'KB': 1024, 'MB': 1024*1024, 'GB': 1024*1024*1024}
        return float(size) * units[unit]

`none` models an exception escaping `convert_size` (there is no `try`
around the sort): a failed 2-element unpack, a `float()` parse error,
or — the interesting case — a `KeyError` because the `units` dict has
no `'TB'` entry even though `format_size` can output `"1.00 TB"`. -/

/-- Model of Python `float(s)` restricted to the strings `format_size`
actually produces for the size column (always `"<digits>.00"`); those
parse exactly to their integer magnitude, and the magnitudes involved
(at most 1023 times a power-of-two unit) are exactly representable, so
exact arithmetic is faithful to the source's floats. -/
def py_float_of_size_str (s : String) : Option Nat :=
  match s.data.reverse with
  | '0' :: '0' :: '.' :: rest => parse_digits rest.reverse
  | _ => none

/-- The `units` dict of `convert_size`; `none` models the `KeyError`
raised on a unit that is missing from the dict (notably `'TB'`). -/
def unit_multiplier : String → Option Nat
  | "B" => some 1
  | "KB" => some 1024
  | "MB" => some (1024 * 1024)
  | "GB" => some (1024 * 1024 * 1024)
  | _ => none

/-- Model of `convert_size`: split the displayed size string into
magnitude and unit (Python `str.split()` drops empty fields), parse the
magnitude back and scale by the unit multiplier.  `none` models an
exception propagating out. -/
def convert_size (size_str : String) : Option Nat :=
  match py_split_ws size_str with
  | [size, unit] =>
    match py_float_of_size_str size, unit_multiplier unit with
    | some v, some m => some (v * m)
    | _, _ => none
  | _ => none

/-! ### ArchiveMetadataReader: `ModCacheX.parse_mod_version` (lines 229-256)

The zip container is modelled by its entry name list and a read
function (`none` = the read or UTF-8 decode raises); the external
`toml` library is modelled by a parse function passed in as an
argument (`none` = `toml.loads` raises), returning the top-level
key/value table it produces on success. -/

/-- Values of the structured-config document produced by `toml.loads`. -/
inductive TomlVal where
  | vStr : String → TomlVal
  | vInt : Int → TomlVal
  | vBool : Bool → TomlVal
  | vList : List TomlVal → TomlVal
  | vTable : List (String × TomlVal) → TomlVal

/-- A top-level structured-config document: a key/value table. -/
def TomlDoc := List (String × TomlVal)

/-- Model of an opened zip container: the entry names in container
listing order (`zip_ref.namelist()`) and the content of each entry
(`none` models an exception while reading or decoding the entry). -/
structure ZipModel where
  namelist : List String
  read : String → Option String

/-- First-match lookup in a key/value table (`toml` tables have unique
keys, so this models the Python dict access). -/
def table_get (kvs : List (String × TomlVal)) (k : String) : Option TomlVal :=
  match kvs with
  | [] => none
  | (k2, v) :: rest => if k2 == k then some v else table_get rest k

/-- Model of the Python test `"$" not in version` for a `toml` value:
`some b` is the boolean outcome, `none` models the `TypeError` raised
when `version` is not a container or string (the surrounding `except`
then yields `None`). -/
def dollar_not_in : TomlVal → Option Bool
  | .vStr s => some (!(py_in_str "$" s))
  | .vList l =>
    some (!(l.any (fun x => match x with | .vStr s => s == "$" | _ => false)))
  | .vTable kvs => some (!(kvs.any (fun kv => kv.1 == "$")))
  | _ => none

/-- Lines 248-253 applied to `data["mods"][0]`: look up `version`, and
return it when it passes the `$`-placeholder test.  When the first
element of `mods` is not a mapping, the interpreter raises on
`"version" in mod_info` (a `TypeError`) or on the `mod_info["version"]`
subscript, and the enclosing `except` turns either into `None`; both
paths collapse to `none` here.  The `version` value is returned as a
`TomlVal` because the source returns whatever the document holds. -/
def version_of_first_mod : TomlVal → Option TomlVal
  | .vTable mkvs =>
    match table_get mkvs "version" with
    | some ver =>
      match dollar_not_in ver with
      | some true => some ver
      | _ => none
    | none => none
  | _ => none

/-- The filter on line 234-235: entries under `META-INF/` with a
`.toml` extension, in container listing order. -/
def toml_entry_names (z : ZipModel) : List String :=
  z.namelist.filter
    (fun f => py_startswith f "META-INF/" && py_endswith f ".toml")

/-- Model of `ModCacheX.parse_mod_version`.  The `zip` argument is
`none` when `zipfile.ZipFile` raises (missing, unreadable, or not a
valid zip container); every exception path falls into the
`except: return None` handler, so the model returns `none` there. -/
def parse_mod_version :
    Option ZipModel → (String → Option TomlDoc) → Option TomlVal
  | none, _ => none
  | some z, toml_loads =>
    match toml_entry_names z with
    | [] => none
    | f :: _ =>
      match z.read f with
      | none => none
      | some content =>
        match toml_loads content with
        | none => none
        | some data =>
          match table_get data "mods" with
          | some (.vList (m0 :: _)) => version_of_first_mod m0
          | _ => none

/-! ### Data model: `ModInfo` (lines 21-31) -/

/-- Model of the `ModInfo` class.  `version` holds whatever
`parse_mod_version` returned (the source annotates it `str | None` but
stores the raw document value). -/
structure ModInfo where
  file_path : String
  name : String
  size : Nat
  version : Option TomlVal
  file_name : String

/-! ### CacheIndex: `ModCacheX.refresh_mod_list` (lines 283-339) and
`ModCacheX.get_cache_size` (lines 258-272) -/

/-- One regular file found by walking the cache directory: its joined
path, its byte size (`os.path.getsize`), and the zip container it
opens to (`none` if opening it as a zip raises). -/
structure FsFile where
  path : String
  size : Nat
  archive : Option ZipModel

/-- State of the cache directory when `refresh_mod_list` runs:
either it is missing and `os.makedirs` raises, or it exists (possibly
just created, then with no files) and walking it yields these files. -/
inductive DirState where
  | uncreatable : DirState
  | files : List FsFile → DirState

/-- Result of a rescan: the rebuilt inventory, the total size summed by
`get_cache_size`, whether the directory-creation error path returned
early, and whether the size-budget warning fired. -/
structure RefreshResult where
  mods : List ModInfo
  cache_size : Nat
  dir_error : Bool
  warning : Bool

/-- The test on line 308: `file.lower().endswith('.jar')`. -/
def is_jar_file (f : FsFile) : Bool :=
  py_endswith (py_lower (basename f.path)) ".jar"

/-- Model of the Python slice `s[:-n]`: the string without its last
`n` characters. -/
def py_drop_last (n : Nat) (s : String) : String :=
  ⟨s.data.take (s.data.length - n)⟩

/-- Lines 317-324: build one `ModInfo` from a discovered jar file.
`mod_name = file_name[:-4]` strips the four extension characters. -/
def mod_of_jar (toml_loads : String → Option TomlDoc) (f : FsFile) : ModInfo :=
  { file_path := f.path
    name := py_drop_last 4 (basename f.path)
    size := f.size
    version := parse_mod_version f.archive toml_loads
    file_name := basename f.path }

/-- Model of `ModCacheX.get_cache_size`: sum the sizes of all files
under the cache directory (not only jar files). -/
def get_cache_size (files : List FsFile) : Nat :=
  (files.map FsFile.size).sum

/-- Line 337: `cache_size / (1024 * 1024)` with Python true division;
exact rational arithmetic coincides with the source's float arithmetic
on every size below 2^53 bytes, where division by the power of two is
exact. -/
def cache_size_mb (cache_size : Nat) : ℚ :=
  (cache_size : ℚ) / (1024 * 1024)

/-- Model of `ModCacheX.refresh_mod_list`.  `prev_mods` is the
inventory held in `self.mods` when the method starts; line 291 clears
it before the directory check, so it is discarded on every path,
including the early return when the directory cannot be created. -/
def refresh_mod_list (prev_mods : List ModInfo) (dir : DirState)
    (toml_loads : String → Option TomlDoc) (max_cache_size : Nat) :
    RefreshResult :=
  match prev_mods, dir with
  | _, .uncreatable =>
    { mods := [], cache_size := 0, dir_error := true, warning := false }
  | _, .files fs =>
    let jar_files := fs.filter is_jar_file
    let cache_size := get_cache_size fs
    let mods := jar_files.map (mod_of_jar toml_loads)
    { mods := mods
      cache_size := cache_size
      dir_error := false
      warning := decide (0 < max_cache_size) &&
        decide (cache_size_mb cache_size > (max_cache_size : ℚ)) }

/-! ### InventoryStore sort: `ModCacheX.sort_tree` (lines 357-374)

For the size column the tree rows hold `format_size mod.size` (set on
insertion at lines 330-331 / 559-560) and `items.sort` uses
`convert_size` of that string as the key.  Python's `list.sort` is
stable; a structural stable insertion sort models it.  If
`convert_size` raises on any row's string (e.g. the `'TB'` unit), the
exception escapes `sort_tree`, modelled by `none`. -/

/-- Insert `a` into a list sorted by `key`, before the first element
with a strictly larger key: a stable insertion. -/
def sort_insert {α : Type} (key : α → Nat) (a : α) : List α → List α
  | [] => [a]
  | b :: bs => if key b < key a then b :: sort_insert key a bs else a :: b :: bs

/-- Stable insertion sort by `key` (equal keys keep original order),
modelling Python's stable `list.sort(key=...)`. -/
def stable_sort {α : Type} (key : α → Nat) : List α → List α
  | [] => []
  | a :: as => sort_insert key a (stable_sort key as)

/-- The value `convert_size` yields for a row's displayed size string;
`none` models the exception. -/
def size_key (m : ModInfo) : Option Nat :=
  convert_size (format_size m.size)

/-- The numeric sort key actually used once all conversions succeed. -/
def size_key_val (m : ModInfo) : Nat :=
  (size_key m).getD 0

/-- Model of `ModCacheX.sort_tree` on the `size` column: the displayed
rows (one per inventory entry, each showing `format_size` of its size)
are reordered by the re-derived numeric value.  `none` models the
`KeyError`/parse exception from `convert_size` escaping the sort. -/
def sort_tree_size (mods : List ModInfo) : Option (List ModInfo) :=
  if mods.all (fun m => (size_key m).isSome) then
    some (stable_sort size_key_val mods)
  else none

/-! ### InventoryStore filter: `ModCacheX.search_mods` (lines 537-562) -/

/-- Model of the conjunct `mod.version and search_text in
mod.version.lower()` on line 549: `None` and falsy values short-circuit
to a falsy result; a truthy non-string has no `.lower()` and raises
`AttributeError`, modelled by `none`. -/
def version_and_match (t : String) : Option TomlVal → Option Bool
  | none => some false
  | some (.vStr s) => some (!(s == "") && py_in_str t (py_lower s))
  | some (.vInt n) => if n == 0 then some false else none
  | some (.vBool b) => if b then none else some false
  | some (.vList l) => if l.isEmpty then some false else none
  | some (.vTable kvs) => if kvs.isEmpty then some false else none

/-- The filtering predicate of lines 548-550, with Python's left-to-
right short-circuit `or`; `none` models an exception while evaluating
it. -/
def mod_matches (t : String) (m : ModInfo) : Option Bool :=
  if py_in_str t (py_lower m.name) then some true
  else
    match version_and_match t m.version with
    | none => none
    | some true => some true
    | some false => some (py_in_str t (py_lower (basename m.file_path)))

/-- The list comprehension of lines 546-551: keep the entries whose
predicate is truthy, aborting (with `none`) if evaluating the
predicate raises. -/
def filter_mods (t : String) : List ModInfo → Option (List ModInfo)
  | [] => some []
  | m :: rest => do
    let b ← mod_matches t m
    let tail ← filter_mods t rest
    pure (if b then m :: tail else tail)

/-- Model of `ModCacheX.search_mods`: lower-case and strip the input;
an empty result triggers a fresh `refresh_mod_list` (a disk rescan)
and displays its inventory, otherwise the in-memory inventory is
filtered.  The returned list is what the tree then displays. -/
def search_mods (mods : List ModInfo) (dir : DirState)
    (toml_loads : String → Option TomlDoc) (max_cache_size : Nat)
    (input_text : String) : Option (List ModInfo) :=
  let search_text := py_strip (py_lower input_text)
  if search_text == "" then
    some (refresh_mod_list mods dir toml_loads max_cache_size).mods
  else filter_mods search_text mods

/-! ### BulkFileOperations import: `ModCacheX.import_mods` (lines 376-426) -/

/-- One file selected for import: whether a same-named file already
exists at the destination, the answer the user gives to the overwrite
prompt when it does (`none` = Cancel, `some false` = No/skip,
`some true` = Yes/overwrite), whether the `shutil.copy2` call would
succeed, and the error text if it fails. -/
structure ImportItem where
  file_path : String
  dest_exists : Bool
  answer : Option Bool
  copy_ok : Bool
  error : String

/-- Accumulated outcome of the import loop: the counters and failure
list of lines 389-391, plus the destination files written so far
(modelling the disk effects of completed copies). -/
structure ImportResult where
  success_count : Nat
  fail_count : Nat
  failed_files : List (String × String)
  copied : List String

/-- Lines 410-417: attempt the copy and record success or failure. -/
def import_attempt (acc : ImportResult) (it : ImportItem) : ImportResult :=
  if it.copy_ok then
    { acc with
      success_count := acc.success_count + 1
      copied := acc.copied ++ [it.file_path] }
  else
    { acc with
      fail_count := acc.fail_count + 1
      failed_files := acc.failed_files ++ [(it.file_path, it.error)] }

/-- The `for file_path in files` loop of lines 393-417, carrying the
accumulated result: a `Cancel` answer executes `break` (returning what
was accumulated, with no rollback), a `No` answer executes `continue`,
otherwise the copy is attempted. -/
def import_go (acc : ImportResult) : List ImportItem → ImportResult
  | [] => acc
  | it :: rest =>
    if it.dest_exists then
      match it.answer with
      | none => acc
      | some false => import_go acc rest
      | some true => import_go (import_attempt acc it) rest
    else import_go (import_attempt acc it) rest

/-- Model of `ModCacheX.import_mods` on a non-empty selection. -/
def import_mods (files : List ImportItem) : ImportResult :=
  import_go { success_count := 0, fail_count := 0,
              failed_files := [], copied := [] } files

/-! ### Helper lemmas -/

/-- Closed form of the `format_size` loop: the value is floor-divided
by `1024` once per unit step actually needed (capped at four steps),
and the resulting unit index is `unit_index_spec`. -/
theorem format_size_go_eq (b : Nat) :
    format_size_go b 4 = (b / 1024 ^ unit_index_spec b, unit_index_spec b) := by
  simp only [format_size_go, unit_index_spec]
  split_ifs <;> simp_all [Prod.ext_iff] <;> omega

/-- The unit index chosen by `format_size` is monotone in the byte
count. -/
theorem unit_index_spec_mono {b b' : Nat} (h : b ≤ b') :
    unit_index_spec b ≤ unit_index_spec b' := by
  simp only [unit_index_spec]
  split_ifs <;> omega

/-- Stable insertion yields a permutation of consing the element. -/
theorem sort_insert_perm {α : Type} (key : α → Nat) (a : α) :
    ∀ l : List α, (sort_insert key a l).Perm (a :: l)
  | [] => List.Perm.refl _
  | b :: bs => by
    simp only [sort_insert]
    split_ifs with h
    · exact ((sort_insert_perm key a bs).cons b).trans (List.Perm.swap a b bs)
    · exact List.Perm.refl _

/-- The stable sort permutes its input. -/
theorem stable_sort_perm {α : Type} (key : α → Nat) :
    ∀ l : List α, (stable_sort key l).Perm l
  | [] => List.Perm.refl _
  | a :: as =>
    (sort_insert_perm key a (stable_sort key as)).trans
      ((stable_sort_perm key as).cons a)

/-- Stable insertion preserves sortedness by the key. -/
theorem sort_insert_pairwise {α : Type} (key : α → Nat) (a : α) :
    ∀ l : List α, l.Pairwise (fun x y => key x ≤ key y) →
      (sort_insert key a l).Pairwise (fun x y => key x ≤ key y)
  | [], _ => List.pairwise_singleton _ _
  | b :: bs, h => by
    rw [List.pairwise_cons] at h
    simp only [sort_insert]
    split_ifs with hlt
    · rw [List.pairwise_cons]
      refine ⟨fun x hx => ?_, sort_insert_pairwise key a bs h.2⟩
      rcases List.mem_cons.mp ((sort_insert_perm key a bs).mem_iff.mp hx) with
        hxa | hxbs
      · exact hxa ▸ Nat.le_of_lt hlt
      · exact h.1 x hxbs
    · rw [List.pairwise_cons]
      refine ⟨fun x hx => ?_, List.pairwise_cons.mpr h⟩
      rcases List.mem_cons.mp hx with hxb | hxbs
      · exact hxb ▸ Nat.le_of_not_lt hlt
      · exact Nat.le_trans (Nat.le_of_not_lt hlt) (h.1 x hxbs)

/-- The stable sort is sorted by the key. -/
theorem stable_sort_pairwise {α : Type} (key : α → Nat) :
    ∀ l : List α, (stable_sort key l).Pairwise (fun x y => key x ≤ key y)
  | [] => List.Pairwise.nil
  | a :: as => sort_insert_pairwise key a _ (stable_sort_pairwise key as)

/-! ### Claim theorems -/

/-- Inventory entry of 2049 bytes: its size column shows `"2.00 KB"`. -/
def c1_mod_a : ModInfo :=
  { file_path := "cache/a.jar", name := "a", size := 2049,
    version := none, file_name := "a.jar" }

/-- Inventory entry of 2048 bytes: its size column also shows
`"2.00 KB"`. -/
def c1_mod_b : ModInfo :=
  { file_path := "cache/b.jar", name := "b", size := 2048,
    version := none, file_name := "b.jar" }

/-- Claim C1, as stated, is false: `sort_tree` on the size column
compares the byte values re-derived from the formatted strings, not
the raw `sizeBytes`.  2049 and 2048 bytes both display as `"2.00 KB"`,
so the stable sort keeps the scan order `[2049, 2048]` and the
`sizeBytes` sequence of the displayed entries decreases. -/
theorem C1_counterexample :
    ¬ (∀ l, sort_tree_size [c1_mod_a, c1_mod_b] = some l →
        (l.map ModInfo.size).Sorted (· ≤ ·)) :=
  fun h => absurd (h [c1_mod_a, c1_mod_b] rfl) (by decide)

/-- Claim C1 (amended): after `sortBy(size)` the displayed entries are
a permutation of the inventory ordered so that the numeric byte values
re-derived from the formatted size strings are non-decreasing (raw
`sizeBytes` of entries displaying the same magnitude keep scan order
and may locally decrease). -/
theorem C1_sort_by_size_amended (mods l : List ModInfo)
    (h : sort_tree_size mods = some l) :
    l.Pairwise (fun a b => size_key_val a ≤ size_key_val b) ∧ l.Perm mods := by
  unfold sort_tree_size at h
  split_ifs at h
  injection h with h
  exact h ▸ ⟨stable_sort_pairwise _ _, stable_sort_perm _ _⟩

/-- Entry of 2048 bytes for the sort example of claim C1. -/
def c1_ex_a : ModInfo :=
  { file_path := "cache/x.jar", name := "x", size := 2048,
    version := none, file_name := "x.jar" }

/-- Entry of 512 bytes for the sort example of claim C1. -/
def c1_ex_b : ModInfo :=
  { file_path := "cache/y.jar", name := "y", size := 512,
    version := none, file_name := "y.jar" }

/-- Entry of 1048576 bytes for the sort example of claim C1. -/
def c1_ex_c : ModInfo :=
  { file_path := "cache/z.jar", name := "z", size := 1048576,
    version := none, file_name := "z.jar" }

/-- Witness for the amended claim C1: sorting the entries of sizes
`[2048, 512, 1048576]` bytes yields ascending order
`512, 2048, 1048576`. -/
theorem C1_sort_by_size_amended_witness :
    sort_tree_size [c1_ex_a, c1_ex_b, c1_ex_c] =
      some [c1_ex_b, c1_ex_a, c1_ex_c]
    ∧ ([c1_ex_b, c1_ex_a, c1_ex_c].Pairwise
        (fun a b => size_key_val a ≤ size_key_val b)
      ∧ [c1_ex_b, c1_ex_a, c1_ex_c].Perm [c1_ex_a, c1_ex_b, c1_ex_c])
    ∧ [c1_ex_b, c1_ex_a, c1_ex_c].map ModInfo.size = [512, 2048, 1048576] :=
  ⟨rfl, C1_sort_by_size_amended [c1_ex_a, c1_ex_b, c1_ex_c] _ rfl, rfl⟩

/-- Inventory entry of one terabyte (1024^4 bytes). -/
def c2_tb_mod : ModInfo :=
  { file_path := "cache/big.jar", name := "big", size := 1099511627776,
    version := none, file_name := "big.jar" }

/-- Claim C2 fails on the code: an entry of 1024^4 bytes is formatted
as `"1.00 TB"`, and `convert_size`'s unit dictionary has no `'TB'`
key, so sorting by size raises a `KeyError` (modelled by `none`) that
escapes `sort_tree` — contradicting both the specification's
no-uncaught-exception rule and `format_size`'s own `TB` unit. -/
theorem C2_sort_tb_keyerror :
    format_size 1099511627776 = "1.00 TB"
    ∧ convert_size "1.00 TB" = none
    ∧ sort_tree_size [c2_tb_mod] = none :=
  ⟨rfl, rfl, rfl⟩

/-- Claim C8: `format_size b` renders `b` floor-divided by `1024^k`
with two decimal places and the `k`-th unit of `{B, KB, MB, GB, TB}`,
where `k` counts the divisions needed to fall below 1024, capped at 4;
the displayed magnitude scaled back by its unit never exceeds `b`, and
the chosen unit index is monotone as the byte count grows. -/
theorem C8_format_size_spec (b b' : Nat) (h : b ≤ b') :
    format_size b =
      toString (b / 1024 ^ unit_index_spec b) ++ ".00 " ++
        size_units.getD (unit_index_spec b) ""
    ∧ (format_size_go b 4).1 * 1024 ^ (format_size_go b 4).2 ≤ b
    ∧ (format_size_go b 4).2 ≤ (format_size_go b' 4).2 := by
  refine ⟨?_, ?_, ?_⟩
  · simp only [format_size, format_size_go_eq]
  · rw [format_size_go_eq]
    exact Nat.div_mul_le_self b _
  · rw [format_size_go_eq, format_size_go_eq]
    exact unit_index_spec_mono h

/-- Witness for claim C8 at 2048 and 1048576 bytes. -/
theorem C8_format_size_spec_witness :
    (format_size 2048 =
      toString (2048 / 1024 ^ unit_index_spec 2048) ++ ".00 " ++
        size_units.getD (unit_index_spec 2048) ""
    ∧ (format_size_go 2048 4).1 * 1024 ^ (format_size_go 2048 4).2 ≤ 2048
    ∧ (format_size_go 2048 4).2 ≤ (format_size_go 1048576 4).2)
    ∧ format_size 2048 = "2.00 KB"
    ∧ format_size 1048576 = "1.00 MB" :=
  ⟨C8_format_size_spec 2048 1048576 (by norm_num), rfl, rfl⟩

/-- When the first element of the `mods` array is a mapping with a
string `version`, lines 248-253 return it exactly when it has no `$`
placeholder character. -/
theorem version_of_first_mod_str (mkvs : List (String × TomlVal)) (s : String)
    (h : table_get mkvs "version" = some (.vStr s)) :
    version_of_first_mod (.vTable mkvs) =
      if py_in_str "$" s then none else some (.vStr s) := by
  simp only [version_of_first_mod, h]
  cases hb : py_in_str "$" s <;> simp [dollar_not_in, hb]

/-- Claim C3: when the first `META-INF/*.toml` entry (in container
listing order) reads, decodes and parses to a document whose top-level
`mods` array is non-empty and whose first element maps `version` to a
string `s`, `parse_mod_version` returns `s` exactly when `s` does not
contain the character `$`, and `None` when it does. -/
theorem C3_extract_version_placeholder (z : ZipModel)
    (toml_loads : String → Option TomlDoc) (f : String) (rest : List String)
    (content : String) (data : TomlDoc) (mods_list : List TomlVal)
    (mkvs : List (String × TomlVal)) (s : String)
    (h1 : toml_entry_names z = f :: rest)
    (h2 : z.read f = some content)
    (h3 : toml_loads content = some data)
    (h4 : table_get data "mods" = some (.vList mods_list))
    (h5 : mods_list.head? = some (.vTable mkvs))
    (h6 : table_get mkvs "version" = some (.vStr s)) :
    parse_mod_version (some z) toml_loads =
      if py_in_str "$" s then none else some (.vStr s) := by
  cases mods_list with
  | nil => simp at h5
  | cons m0 tail =>
    simp only [List.head?_cons, Option.some.injEq] at h5
    subst h5
    simp only [parse_mod_version, h1, h2, h3, h4]
    exact version_of_first_mod_str mkvs s h6

/-- Archive used in the witness for claim C3. -/
def c3_zip : ZipModel :=
  { namelist := ["META-INF/mods.toml"], read := fun _ => some "doc" }

/-- Metadata parse producing a concrete version for claim C3. -/
def c3_load : String → Option TomlDoc := fun _ =>
  some [("mods", .vList [.vTable [("version", .vStr "1.2.3")]])]

/-- Metadata parse producing an unresolved placeholder version. -/
def c3_load_placeholder : String → Option TomlDoc := fun _ =>
  some [("mods", .vList [.vTable [("version", .vStr "${project.version}")]])]

/-- Witness for claim C3: a concrete version string is returned, and
the placeholder `"${project.version}"` yields an unknown version. -/
theorem C3_extract_version_placeholder_witness :
    parse_mod_version (some c3_zip) c3_load = some (.vStr "1.2.3")
    ∧ parse_mod_version (some c3_zip) c3_load_placeholder = none := by
  constructor
  · exact (C3_extract_version_placeholder c3_zip c3_load "META-INF/mods.toml"
      [] "doc" _ _ _ "1.2.3" rfl rfl rfl rfl rfl rfl).trans rfl
  · exact (C3_extract_version_placeholder c3_zip c3_load_placeholder
      "META-INF/mods.toml" [] "doc" _ _ _ "${project.version}"
      rfl rfl rfl rfl rfl rfl).trans rfl

/-- Claim C4: `parse_mod_version` is a total function and every failure
mode — the file is not a valid zip container or unreadable (`zip =
none`), no `META-INF/*.toml` entry exists, reading or decoding the
first such entry raises, or parsing its content raises — yields `None`
instead of propagating the exception. -/
theorem C4_extract_version_total (toml_loads : String → Option TomlDoc) :
    parse_mod_version none toml_loads = none
    ∧ (∀ z : ZipModel, toml_entry_names z = [] →
        parse_mod_version (some z) toml_loads = none)
    ∧ (∀ (z : ZipModel) (f : String) (rest : List String),
        toml_entry_names z = f :: rest → z.read f = none →
        parse_mod_version (some z) toml_loads = none)
    ∧ (∀ (z : ZipModel) (f : String) (rest : List String) (content : String),
        toml_entry_names z = f :: rest → z.read f = some content →
        toml_loads content = none →
        parse_mod_version (some z) toml_loads = none) := by
  refine ⟨rfl, ?_, ?_, ?_⟩
  · intro z h
    simp only [parse_mod_version, h]
  · intro z f rest h1 h2
    simp only [parse_mod_version, h1, h2]
  · intro z f rest content h1 h2 h3
    simp only [parse_mod_version, h1, h2, h3]

/-- Archive with no metadata entry, for the witness of claim C4. -/
def c4_zip_no_meta : ZipModel :=
  { namelist := ["foo.txt", "META-INF/x.json"], read := fun _ => some "" }

/-- Archive whose metadata entry cannot be read or decoded. -/
def c4_zip_bad_read : ZipModel :=
  { namelist := ["META-INF/a.toml"], read := fun _ => none }

/-- A metadata parser that always raises, modelled by `none`. -/
def c4_load_raises : String → Option TomlDoc := fun _ => none

/-- Witness for claim C4: an invalid container, a container without a
metadata entry, and an unreadable metadata entry all yield `None`. -/
theorem C4_extract_version_total_witness :
    parse_mod_version none c4_load_raises = none
    ∧ parse_mod_version (some c4_zip_no_meta) c4_load_raises = none
    ∧ parse_mod_version (some c4_zip_bad_read) c4_load_raises = none :=
  ⟨(C4_extract_version_total c4_load_raises).1,
   (C4_extract_version_total c4_load_raises).2.1 c4_zip_no_meta rfl,
   (C4_extract_version_total c4_load_raises).2.2.1 c4_zip_bad_read
     "META-INF/a.toml" [] rfl rfl⟩

/-- Claim C5: a rescan over an existing directory yields exactly one
inventory entry per walked file whose name ends case-insensitively in
`.jar` — each entry carrying the path, the file name with the four
extension characters stripped as its display name, and whatever
`parse_mod_version` yielded (so a metadata failure does not abort the
scan or exclude the file: its entry appears with an unknown
version). -/
theorem C5_rescan_entries (prev : List ModInfo) (fs : List FsFile)
    (toml_loads : String → Option TomlDoc) (max : Nat) :
    (refresh_mod_list prev (.files fs) toml_loads max).mods.length =
      (fs.filter is_jar_file).length
    ∧ (∀ f ∈ fs, is_jar_file f = true →
        mod_of_jar toml_loads f ∈
          (refresh_mod_list prev (.files fs) toml_loads max).mods)
    ∧ (∀ m ∈ (refresh_mod_list prev (.files fs) toml_loads max).mods,
        ∃ f ∈ fs, is_jar_file f = true ∧ m = mod_of_jar toml_loads f)
    ∧ (∀ f : FsFile,
        (mod_of_jar toml_loads f).name = py_drop_last 4 (basename f.path)
        ∧ (mod_of_jar toml_loads f).version =
            parse_mod_version f.archive toml_loads) := by
  refine ⟨?_, ?_, ?_, fun f => ⟨rfl, rfl⟩⟩
  · simp [refresh_mod_list]
  · intro f hf hjar
    simp only [refresh_mod_list, List.mem_map]
    exact ⟨f, List.mem_filter.mpr ⟨hf, hjar⟩, rfl⟩
  · intro m hm
    simp only [refresh_mod_list, List.mem_map] at hm
    obtain ⟨f, hf, hEq⟩ := hm
    exact ⟨f, (List.mem_filter.mp hf).1, (List.mem_filter.mp hf).2, hEq.symm⟩

/-- Archive `A.jar` of claim C5's example, with a valid metadata
entry. -/
def c5_zip_a : ZipModel :=
  { namelist := ["META-INF/mods.toml"], read := fun _ => some "a" }

/-- Archive `B.jar` of claim C5's example, with no metadata entry. -/
def c5_zip_b : ZipModel :=
  { namelist := ["b.class"], read := fun _ => some "" }

/-- Metadata parser for claim C5's example, yielding version
`"1.2.3"`. -/
def c5_load : String → Option TomlDoc := fun _ =>
  some [("mods", .vList [.vTable [("version", .vStr "1.2.3")]])]

/-- The walked file `A.jar`. -/
def c5_file_a : FsFile :=
  { path := "cache/A.jar", size := 10, archive := some c5_zip_a }

/-- The walked file `B.jar`. -/
def c5_file_b : FsFile :=
  { path := "cache/B.jar", size := 20, archive := some c5_zip_b }

/-- Witness for claim C5: rescanning a directory holding `A.jar` (valid
metadata, version `"1.2.3"`) and `B.jar` (no metadata entry) yields
exactly two entries, `A` with version `"1.2.3"` and `B` with unknown
version. -/
theorem C5_rescan_entries_witness :
    (refresh_mod_list [] (.files [c5_file_a, c5_file_b]) c5_load 0).mods.length
      = 2
    ∧ mod_of_jar c5_load c5_file_a ∈
        (refresh_mod_list [] (.files [c5_file_a, c5_file_b]) c5_load 0).mods
    ∧ ((refresh_mod_list [] (.files [c5_file_a, c5_file_b]) c5_load 0).mods.map
        ModInfo.name) = ["A", "B"]
    ∧ ((refresh_mod_list [] (.files [c5_file_a, c5_file_b]) c5_load 0).mods.map
        ModInfo.version) = [some (.vStr "1.2.3"), none] := by
  refine ⟨(C5_rescan_entries [] [c5_file_a, c5_file_b] c5_load 0).1.trans rfl,
    (C5_rescan_entries [] [c5_file_a, c5_file_b] c5_load 0).2.1 c5_file_a
      (by simp) rfl, rfl, rfl⟩

/-- Claim C6: the rescan's budget warning fires exactly when the
configured cap is non-zero and the total size of all walked files
(archives or not), divided by 1024·1024, strictly exceeds the cap; a
cap of 0 never warns, and an 11 MB non-archive payload against a 10 MB
cap warns. -/
theorem C6_budget_warning_iff (prev : List ModInfo) (fs : List FsFile)
    (toml_loads : String → Option TomlDoc) (max : Nat) :
    ((refresh_mod_list prev (.files fs) toml_loads max).warning = true ↔
      0 < max ∧ max * (1024 * 1024) < get_cache_size fs)
    ∧ (refresh_mod_list prev (.files fs) toml_loads 0).warning = false
    ∧ (refresh_mod_list prev
        (.files [{ path := "cache/data.bin", size := 11 * (1024 * 1024),
                   archive := none }]) toml_loads 10).warning = true := by
  have key : ∀ n m : Nat,
      ((decide (0 < m) && decide (cache_size_mb n > (m : ℚ))) = true ↔
        0 < m ∧ m * (1024 * 1024) < n) := by
    intro n m
    rw [Bool.and_eq_true, decide_eq_true_eq, decide_eq_true_eq]
    refine and_congr_right fun _ => ?_
    rw [gt_iff_lt, cache_size_mb, lt_div_iff₀ (by norm_num)]
    norm_cast
  refine ⟨key (get_cache_size fs) max, ?_, ?_⟩
  · simp [refresh_mod_list]
  · exact (key (11 * (1024 * 1024)) 10).mpr (by norm_num [get_cache_size])

/-- Claim C10: when the cache directory is missing and cannot be
created, the rescan returns early through the error path, but the
in-memory inventory was already cleared on line 291, so whatever the
previous scan contained, the inventory after the failed rescan is
empty. -/
theorem C10_failed_rescan_clears (prev : List ModInfo)
    (toml_loads : String → Option TomlDoc) (max : Nat) :
    (refresh_mod_list prev .uncreatable toml_loads max).mods = []
    ∧ (refresh_mod_list prev .uncreatable toml_loads max).dir_error = true :=
  ⟨rfl, rfl⟩

/-- The boolean value of the search predicate of lines 548-550 when
the inventory entry's version is a string or absent (the only shapes a
scan produces from well-formed metadata): the searched text occurs in
the lower-cased display name, in the lower-cased version when present
and non-empty, or in the lower-cased file name. -/
def code_match (t : String) (m : ModInfo) : Bool :=
  py_in_str t (py_lower m.name) ||
    (match m.version with
     | some (.vStr s) => !(s == "") && py_in_str t (py_lower s)
     | _ => false) ||
    py_in_str t (py_lower (basename m.file_path))

/-- On a version that is absent or a string, the version conjunct
evaluates without raising. -/
theorem version_and_match_str (t : String) (v : Option TomlVal)
    (h : v = none ∨ ∃ s, v = some (.vStr s)) :
    version_and_match t v =
      some (match v with
            | some (.vStr s) => !(s == "") && py_in_str t (py_lower s)
            | _ => false) := by
  rcases h with rfl | ⟨s, rfl⟩ <;> rfl

/-- On an entry whose version is absent or a string, the search
predicate evaluates to `code_match` without raising. -/
theorem mod_matches_str (t : String) (m : ModInfo)
    (h : m.version = none ∨ ∃ s, m.version = some (.vStr s)) :
    mod_matches t m = some (code_match t m) := by
  rcases h with hv | ⟨s, hv⟩
  · simp only [mod_matches, code_match, version_and_match, hv]
    cases h1 : py_in_str t (py_lower m.name) <;> simp [h1]
  · simp only [mod_matches, code_match, version_and_match, hv]
    cases h1 : py_in_str t (py_lower m.name) <;>
      cases hb : (!(s == "") && py_in_str t (py_lower s)) <;> simp [h1, hb]

/-- On an inventory of entries whose versions are absent or strings,
the search comprehension is the plain filter by `code_match`. -/
theorem filter_mods_str (t : String) :
    ∀ mods : List ModInfo,
      (∀ m ∈ mods, m.version = none ∨ ∃ s, m.version = some (.vStr s)) →
      filter_mods t mods = some (mods.filter (code_match t))
  | [], _ => rfl
  | m :: rest, h => by
    have hm := mod_matches_str t m (h m (List.mem_cons_self m rest))
    have ih := filter_mods_str t rest
      (fun x hx => h x (List.mem_cons_of_mem m hx))
    simp only [filter_mods, hm, ih, Option.bind_eq_bind, Option.some_bind]
    cases hc : code_match t m <;> simp [List.filter_cons, hc]

/-- Predicate following claim C7's own words (not the source): the
predicate text is a case-insensitive substring of the display name, of
the version (when present), or of the raw file name. -/
def spec_match (t : String) (m : ModInfo) : Bool :=
  py_in_str (py_lower t) (py_lower m.name) ||
    (match m.version with
     | some (.vStr s) => py_in_str (py_lower t) (py_lower s)
     | _ => false) ||
    py_in_str (py_lower t) (py_lower m.file_name)

/-- Inventory entry named `A` used for the counterexample to claim C7
as stated. -/
def c7_mod_a : ModInfo :=
  { file_path := "cache/A.jar", name := "A", size := 1,
    version := none, file_name := "A.jar" }

/-- Claim C7, as stated, is false on two counts.  First, the predicate
is stripped before matching: searching `"A "` returns the entry named
`"A"` although `"a "` is a substring of none of its fields, so the
result is not the set the claim describes.  Second, an empty predicate
does not return the in-memory inventory unchanged: it triggers a fresh
disk rescan (`refresh_mod_list`), and when the directory no longer
matches the in-memory list the result differs from it. -/
theorem C7_counterexample :
    search_mods [c7_mod_a] (.files []) (fun _ => none) 0 "A " = some [c7_mod_a]
    ∧ [c7_mod_a].filter (spec_match "A ") = []
    ∧ search_mods [c7_mod_a] (.files []) (fun _ => none) 0 "" = some []
    ∧ [c7_mod_a] ≠ [] :=
  ⟨rfl, rfl, rfl, by simp⟩

/-- Claim C7 (amended): the search text is lower-cased and stripped; a
text that is empty after stripping triggers a fresh rescan and shows
its inventory, and otherwise (on an inventory whose versions are
strings or absent) exactly the entries whose lower-cased display name,
non-empty version, or file name contains the stripped lower-cased text
are returned, purely in memory. -/
theorem C7_filter_amended (mods : List ModInfo) (dir : DirState)
    (toml_loads : String → Option TomlDoc) (max : Nat) (text : String)
    (hstr : ∀ m ∈ mods, m.version = none ∨ ∃ s, m.version = some (.vStr s)) :
    (py_strip (py_lower text) = "" →
      search_mods mods dir toml_loads max text =
        some (refresh_mod_list mods dir toml_loads max).mods)
    ∧ (py_strip (py_lower text) ≠ "" →
      search_mods mods dir toml_loads max text =
        some (mods.filter (code_match (py_strip (py_lower text))))) := by
  constructor
  · intro he
    simp [search_mods, he]
  · intro hne
    have hbe : (py_strip (py_lower text) == "") = false := by
      simpa using hne
    simp [search_mods, hbe, filter_mods_str _ mods hstr]

/-- Entry `A` with version `"1.2.3"` for claim C7's example. -/
def c7_mod_v : ModInfo :=
  { file_path := "cache/A.jar", name := "A", size := 10,
    version := some (.vStr "1.2.3"), file_name := "A.jar" }

/-- Entry `B` with unknown version for claim C7's example. -/
def c7_mod_n : ModInfo :=
  { file_path := "cache/B.jar", name := "B", size := 20,
    version := none, file_name := "B.jar" }

/-- Witness for the amended claim C7: `filter("1.2")` on the inventory
`{A` with version `"1.2.3"`, `B` unknown`}` returns only `A`, and a
blank search text rescans and shows the fresh (here empty)
inventory. -/
theorem C7_filter_amended_witness :
    search_mods [c7_mod_v, c7_mod_n] (.files []) (fun _ => none) 0 "1.2" =
      some ([c7_mod_v, c7_mod_n].filter (code_match "1.2"))
    ∧ [c7_mod_v, c7_mod_n].filter (code_match "1.2") = [c7_mod_v]
    ∧ search_mods [c7_mod_v, c7_mod_n] (.files []) (fun _ => none) 0 " " =
        some [] := by
  have hstr : ∀ m ∈ [c7_mod_v, c7_mod_n],
      m.version = none ∨ ∃ s, m.version = some (.vStr s) := by
    intro m hm
    rcases List.mem_cons.mp hm with rfl | hm2
    · exact Or.inr ⟨"1.2.3", rfl⟩
    · rcases List.mem_cons.mp hm2 with rfl | h3
      · exact Or.inl rfl
      · exact absurd h3 (List.not_mem_nil m)
  refine ⟨?_, rfl, ?_⟩
  · exact (C7_filter_amended [c7_mod_v, c7_mod_n] (.files [])
      (fun _ => none) 0 "1.2" hstr).2 (by decide)
  · exact ((C7_filter_amended [c7_mod_v, c7_mod_n] (.files [])
      (fun _ => none) 0 " " hstr).1 rfl).trans rfl

/-- Claim C9: during import, a `skip` answer on a name collision
leaves the loop state untouched (the item lands in neither the
succeeded count nor the failure list) and processing continues with
the remaining items, while a `cancel` answer breaks out immediately,
returning whatever was accumulated — already-completed copies remain
done, with no rollback. -/
theorem C9_import_skip_cancel (acc : ImportResult) (it : ImportItem)
    (rest : List ImportItem) (hexists : it.dest_exists = true) :
    (it.answer = some false → import_go acc (it :: rest) = import_go acc rest)
    ∧ (it.answer = none → import_go acc (it :: rest) = acc) := by
  constructor
  · intro ha
    simp [import_go, hexists, ha]
  · intro ha
    simp [import_go, hexists, ha]

/-- Import item `f1`: no collision, copy succeeds. -/
def c9_item_1 : ImportItem :=
  { file_path := "f1", dest_exists := false, answer := none,
    copy_ok := true, error := "" }

/-- Import item `f2`: name collision, user answers skip. -/
def c9_item_2 : ImportItem :=
  { file_path := "f2", dest_exists := true, answer := some false,
    copy_ok := true, error := "" }

/-- Import item `f3`: no collision, copy succeeds. -/
def c9_item_3 : ImportItem :=
  { file_path := "f3", dest_exists := false, answer := none,
    copy_ok := true, error := "" }

/-- Import item `f2` with the cancel-all answer instead. -/
def c9_item_2c : ImportItem :=
  { file_path := "f2", dest_exists := true, answer := none,
    copy_ok := true, error := "" }

/-- The loop state after importing `f1`: one success, its copy on
disk. -/
def c9_acc_1 : ImportResult :=
  { success_count := 1, fail_count := 0, failed_files := [],
    copied := ["f1"] }

/-- Witness for claim C9: importing three files where the second
collides and is skipped yields 2 succeeded and 0 failed; with
cancel-all instead, processing stops at once and `f1`'s completed copy
remains. -/
theorem C9_import_skip_cancel_witness :
    import_mods [c9_item_1, c9_item_2, c9_item_3] =
      { success_count := 2, fail_count := 0, failed_files := [],
        copied := ["f1", "f3"] }
    ∧ import_mods [c9_item_1, c9_item_2c, c9_item_3] = c9_acc_1 := by
  constructor
  · calc import_mods [c9_item_1, c9_item_2, c9_item_3]
        = import_go c9_acc_1 [c9_item_2, c9_item_3] := rfl
      _ = import_go c9_acc_1 [c9_item_3] :=
          (C9_import_skip_cancel c9_acc_1 c9_item_2 [c9_item_3] rfl).1 rfl
      _ = { success_count := 2, fail_count := 0, failed_files := [],
            copied := ["f1", "f3"] } := rfl
  · calc import_mods [c9_item_1, c9_item_2c, c9_item_3]
        = import_go c9_acc_1 [c9_item_2c, c9_item_3] := rfl
      _ = c9_acc_1 :=
          (C9_import_skip_cancel c9_acc_1 c9_item_2c [c9_item_3] rfl).2 rfl

end ModCacheX
